import Mathlib

/-!
Shallow embedding of `tools/val/val.cpp` from SPIRV-Tools: the `spirv-val`
command-line front end.  The file models the argument-parsing loop of `main`
(lines 59-149), the diagnostic message consumer (lines 155-175), and the
tail of `main` (input loading, validation call, exit code; lines 151-179).

External collaborators (`spvParseUniversalLimitsOptions`, `spvParseTargetEnv`,
`ReadFile`, `SpirvTools::Validate`, enum `spv_message_level_t`) live outside
the visible source tree; where a claim depends on them they are modelled from
the spec and marked as such.
-/

namespace SpvVal

/-- Modelled from the spec: the eight limit kinds of the Limit Option
Resolver's fixed table (`spv_validator_limit` in the SPIRV-Tools headers,
not part of the visible source). -/
inductive LimitKind where
  | structMembers
  | structDepth
  | localVariables
  | globalVariables
  | switchBranches
  | functionArgs
  | controlFlowNestingDepth
  | accessChainIndexes
  deriving DecidableEq, Repr

/-- Modelled from the spec: the target-environment identifiers reachable from
this tool (`spv_target_env` constants named in `val.cpp`: the default
`SPV_ENV_UNIVERSAL_1_2`, the four decodable by `--target-env`, and the three
printed by `--version`). -/
inductive TargetEnv where
  | universal_1_0
  | universal_1_1
  | universal_1_2
  | vulkan_1_0
  deriving DecidableEq, Repr

/-- Modelled from the spec: `spvParseTargetEnv` (not part of the visible
source) decodes a target-environment identifier by exact string match against
the fixed table `vulkan1.0` / `spv1.0` / `spv1.1` / `spv1.2`. -/
def spvParseTargetEnv (s : String) : Option TargetEnv :=
  if s = "vulkan1.0" then some .vulkan_1_0
  else if s = "spv1.0" then some .universal_1_0
  else if s = "spv1.1" then some .universal_1_1
  else if s = "spv1.2" then some .universal_1_2
  else none

/-- Modelled from the spec: `spvParseUniversalLimitsOptions` (not part of the
visible source) maps a `--max-<name>` flag to its limit kind by exact match
against the fixed table of eight kinds. -/
def spvParseUniversalLimitsOptions (s : String) : Option LimitKind :=
  if s = "--max-struct-members" then some .structMembers
  else if s = "--max-struct-depth" then some .structDepth
  else if s = "--max-local-variables" then some .localVariables
  else if s = "--max-global-variables" then some .globalVariables
  else if s = "--max-switch-branches" then some .switchBranches
  else if s = "--max-function-args" then some .functionArgs
  else if s = "--max-control-flow-nesting-depth" then some .controlFlowNestingDepth
  else if s = "--max-access-chain-indexes" then some .accessChainIndexes
  else none

/-- `spvtools::ValidatorOptions` as used by `val.cpp`: the universal limits
set via `SetUniversalLimit` and the two relaxation flags. `limits k = none`
means limit `k` was never set (the validator's default applies). -/
structure ValidatorOptions where
  limits : LimitKind → Option Nat
  relaxLogicalPointer : Bool
  relaxStructStore : Bool

/-- `options.SetUniversalLimit(limit_type, limit)` (val.cpp line 75). -/
def ValidatorOptions.setUniversalLimit (o : ValidatorOptions) (k : LimitKind)
    (n : Nat) : ValidatorOptions :=
  { o with limits := fun k' => if k' = k then some n else o.limits k' }

/-- `options.SetRelaxLogicalPointer(true)` (val.cpp line 118). -/
def ValidatorOptions.setRelaxLogicalPointer (o : ValidatorOptions) (b : Bool) :
    ValidatorOptions :=
  { o with relaxLogicalPointer := b }

/-- `options.SetRelaxStructStore(true)` (val.cpp line 120). -/
def ValidatorOptions.setRelaxStructStore (o : ValidatorOptions) (b : Bool) :
    ValidatorOptions :=
  { o with relaxStructStore := b }

/-- The mutable locals of `main` that the argument loop updates:
`inFile`, `target_env`, `options` (val.cpp lines 60-62). -/
structure ParseState where
  options : ValidatorOptions
  targetEnv : TargetEnv
  inFile : Option String

/-- Initial values of the locals (val.cpp lines 60-62): no input file,
`SPV_ENV_UNIVERSAL_1_2`, default-constructed options. -/
def initState : ParseState :=
  { options := { limits := fun _ => none
                 relaxLogicalPointer := false
                 relaxStructStore := false }
    targetEnv := .universal_1_2
    inFile := none }

/-- What a terminating branch of the loop writes before exiting: a line on
standard error, or the usage block (`print_usage`, which goes to standard
output). -/
inductive ErrOut where
  | stderrLine (s : String)
  | usage
  deriving DecidableEq, Repr

/-- Result of the argument loop of `main` (val.cpp lines 66-144), i.e. the
state when the loop stops: still processing at end of arguments (`cont`),
or one of the terminal branches that clear `continue_processing`.
`versionExit` records the target environments whose descriptions the
`--version` branch prints; `errorExit` records the locals' values at the
abort and what was written. -/
inductive ParseResult where
  | cont (st : ParseState)
  | helpExit
  | versionExit (printed : List TargetEnv)
  | errorExit (st : ParseState) (out : ErrOut)

/-- The three target environments whose descriptions `--version` prints
(val.cpp lines 94-97), a hard-coded list. -/
def versionTargets : List TargetEnv :=
  [.universal_1_1, .vulkan_1_0, .universal_1_2]

/-- Model of the condition `if (sscanf(argv[++argi], "%d", &limit))` with
`uint32_t limit = 0` (val.cpp lines 73-74): `some n` when the branch is taken
with `limit = n`, `none` when `sscanf` returns 0 and the error branch runs.
`%d` skips leading whitespace, then matches an optional sign followed by at
least one base-10 digit, the signed value stored into the 32-bit slot
(reduced modulo 2^32).  On an empty or all-whitespace token `sscanf` hits end
of input before any conversion and returns EOF (-1), which the `if` treats
as success with `limit` left at its initialised 0; only a non-empty
remainder that does not start an optionally-signed digit sequence makes
`sscanf` return 0. -/
def sscanfD (s : String) : Option Nat :=
  let cs := s.toList.dropWhile (fun c =>
    c = ' ' ∨ c = '\t' ∨ c = '\n' ∨ c = '\x0b' ∨ c = '\x0c' ∨ c = '\r')
  match cs with
  | [] => some 0
  | '-' :: ds => (digitsVal ds).map (fun v => (2 ^ 32 - v % 2 ^ 32) % 2 ^ 32)
  | '+' :: ds => (digitsVal ds).map (fun v => v % 2 ^ 32)
  | ds => (digitsVal ds).map (fun v => v % 2 ^ 32)
where
  /-- Value of the maximal leading run of decimal digits; `none` if there is
  none (matching failure). -/
  digitsVal (cs : List Char) : Option Nat :=
    match cs.takeWhile Char.isDigit with
    | [] => none
    | ds => some (ds.foldl (fun a c => 10 * a + (c.toNat - 48)) 0)

/-- The argument loop of `main` (val.cpp lines 66-144), one token at a time,
as a function from the current locals and the remaining tokens to the loop's
outcome.  Each branch mirrors an `if`/`else if` arm of the loop body. -/
def processTokens (st : ParseState) : List String → ParseResult
  | [] => .cont st
  | tok :: rest =>
    -- `'-' == cur_arg[0]` (line 68)
    if tok.toList.head? = some '-' then
      -- `0 == strncmp(cur_arg, "--max-", 6)` (line 69)
      if tok.toList.take 6 = "--max-".toList then
        match rest with
        | [] => .errorExit st (.stderrLine ("error: Missing argument to " ++ tok ++ "\n"))
        | v :: rest' =>
          match spvParseUniversalLimitsOptions tok with
          | some kind =>
            match sscanfD v with
            | some n =>
              processTokens { st with options := st.options.setUniversalLimit kind n } rest'
            | none =>
              .errorExit st (.stderrLine ("error: missing argument to " ++ tok ++ "\n"))
          | none =>
            .errorExit st (.stderrLine ("error: unrecognized option: " ++ tok ++ "\n"))
      else if tok = "--version" then
        .versionExit versionTargets
      else if tok = "--help" ∨ tok = "-h" then
        .helpExit
      else if tok = "--target-env" then
        match rest with
        | [] => .errorExit st (.stderrLine "error: Missing argument to --target-env\n")
        | v :: rest' =>
          match spvParseTargetEnv v with
          | some env => processTokens { st with targetEnv := env } rest'
          | none =>
            .errorExit st (.stderrLine ("error: Unrecognized target env: " ++ v ++ "\n"))
      else if tok = "--relax-logical-pointer" then
        processTokens { st with options := st.options.setRelaxLogicalPointer true } rest
      else if tok = "--relax-struct-store" then
        processTokens { st with options := st.options.setRelaxStructStore true } rest
      -- `0 == cur_arg[1]`: the token is exactly "-" (line 121)
      else if tok = "-" then
        match st.inFile with
        | none => processTokens { st with inFile := some tok } rest
        | some _ =>
          .errorExit st (.stderrLine "error: More than one input file specified\n")
      else
        .errorExit st .usage
    else
      match st.inFile with
      | none => processTokens { st with inFile := some tok } rest
      | some _ =>
        .errorExit st (.stderrLine "error: More than one input file specified\n")

/-- Observable outcome of one run of `main`: the process exit code, whether
the input was read (`ReadFile`, line 152), and whether the external validate
call happened (line 177). -/
structure MainResult where
  exitCode : Nat
  readAttempted : Bool
  validated : Bool
  deriving DecidableEq, Repr

/-- The tail of `main` after the argument loop (val.cpp lines 146-179),
parameterised by the external collaborators: `readFile` models
`ReadFile<uint32_t>` (`none` = I/O failure, line 152 returns 1), and
`validate` models `tools.Validate(contents.data(), contents.size(), options)`
for the `SpirvTools` instance constructed from the target environment
(lines 154, 177).  The exit code on the validation path is `return !succeed`
(line 179): C++ `bool` negation converted to `int`, i.e. 0 or 1. -/
def runMain (args : List String)
    (readFile : Option String → Option (List Nat))
    (validate : List Nat → TargetEnv → ValidatorOptions → Bool) : MainResult :=
  match processTokens initState args with
  | .helpExit => { exitCode := 0, readAttempted := false, validated := false }
  | .versionExit _ => { exitCode := 0, readAttempted := false, validated := false }
  | .errorExit _ _ => { exitCode := 1, readAttempted := false, validated := false }
  | .cont st =>
    match readFile st.inFile with
    | none => { exitCode := 1, readAttempted := true, validated := false }
    | some contents =>
      let succeed := validate contents st.targetEnv st.options
      { exitCode := if succeed then 0 else 1
        readAttempted := true
        validated := true }

/-- Modelled from the spec: the severity levels of `spv_message_level_t`
(declared outside the visible source).  `other` stands for any severity the
switch in val.cpp lines 158-174 does not name (its `default:` case); per the
spec such events are silently dropped. -/
inductive MessageLevel where
  | fatal
  | internalError
  | error
  | warning
  | info
  | other
  deriving DecidableEq, Repr

/-- The two console streams. -/
inductive Stream where
  | stdout
  | stderr
  deriving DecidableEq, Repr

/-- The message consumer installed by `tools.SetMessageConsumer`
(val.cpp lines 155-175): the list of (stream, text) writes that one
diagnostic event with the given severity, position index and message
produces.  `std::endl` is the line terminator `"\n"`. -/
def messageConsumer (level : MessageLevel) (positionIndex : Nat)
    (message : String) : List (Stream × String) :=
  match level with
  | .fatal | .internalError | .error =>
    [(.stderr, "error: " ++ Nat.repr positionIndex ++ ": " ++ message ++ "\n")]
  | .warning =>
    [(.stdout, "warning: " ++ Nat.repr positionIndex ++ ": " ++ message ++ "\n")]
  | .info =>
    [(.stdout, "info: " ++ Nat.repr positionIndex ++ ": " ++ message ++ "\n")]
  | .other => []

/-- Spec-side restatement of the Diagnostic Router contract (spec section 4.4),
written from the spec's words: a routing table from severity to (stream,
label), unrouted severities dropped, and every printed line of the exact
shape `<label>: <position-index>: <message>` plus a line terminator. -/
def specRoutingTable (level : MessageLevel) : Option (Stream × String) :=
  match level with
  | .fatal => some (.stderr, "error")
  | .internalError => some (.stderr, "error")
  | .error => some (.stderr, "error")
  | .warning => some (.stdout, "warning")
  | .info => some (.stdout, "info")
  | .other => none

/-- Spec-side Diagnostic Router: render one event per the spec's routing
rule and line shape. -/
def specRouteDiagnostic (level : MessageLevel) (positionIndex : Nat)
    (message : String) : List (Stream × String) :=
  match specRoutingTable level with
  | none => []
  | some (stream, label) =>
    [(stream, label ++ ": " ++ Nat.repr positionIndex ++ ": " ++ message ++ "\n")]

/-- Spec-side extraction (spec section 8): the ordered list of valid
`--max-<name> <n>` pairs that a single left-to-right pass applies, traversing
tokens exactly as the loop consumes them. -/
def limitPairs : List String → List (LimitKind × Nat)
  | [] => []
  | tok :: rest =>
    if tok.toList.head? = some '-' then
      if tok.toList.take 6 = "--max-".toList then
        match rest with
        | [] => []
        | v :: rest' =>
          match spvParseUniversalLimitsOptions tok with
          | some kind =>
            match sscanfD v with
            | some n => (kind, n) :: limitPairs rest'
            | none => []
          | none => []
      else if tok = "--version" then []
      else if tok = "--help" ∨ tok = "-h" then []
      else if tok = "--target-env" then
        match rest with
        | [] => []
        | v :: rest' =>
          match spvParseTargetEnv v with
          | some _ => limitPairs rest'
          | none => []
      else if tok = "--relax-logical-pointer" then limitPairs rest
      else if tok = "--relax-struct-store" then limitPairs rest
      else if tok = "-" then limitPairs rest
      else []
    else limitPairs rest

/-- Last-occurrence-wins lookup in a list of (kind, value) pairs: the value
of the last pair for `k`, or `none` when no pair mentions `k`. -/
def lastAssoc : List (LimitKind × Nat) → LimitKind → Option Nat
  | [], _ => none
  | p :: tl, k =>
    match lastAssoc tl k with
    | some v => some v
    | none => if p.1 = k then some p.2 else none

/-- Projection: the state carried by a `cont` result. -/
def ParseResult.contState? : ParseResult → Option ParseState
  | .cont st => some st
  | _ => none

/-- Projection: whether the loop finished still in processing mode. -/
def ParseResult.isCont (r : ParseResult) : Bool :=
  r.contState?.isSome

/-- Projection: what an `errorExit` result wrote. -/
def ParseResult.errOut? : ParseResult → Option ErrOut
  | .errorExit _ out => some out
  | _ => none

/-- A token the loop treats as an input path: the literal `-`, or any token
not beginning with a dash. -/
def isInputPathToken (t : String) : Prop :=
  t = "-" ∨ t.toList.head? ≠ some '-'

/-! ### Single-step characterisations of the argument loop

One lemma per branch of the loop body, used throughout the development. -/

theorem take6_head (tok : String) (h : tok.toList.take 6 = "--max-".toList) :
    tok.toList.head? = some '-' := by
  cases htl : tok.toList with
  | nil => rw [htl] at h; simp at h
  | cons c cs => rw [htl] at h; simp_all

theorem processTokens_nil (st : ParseState) : processTokens st [] = .cont st := rfl

theorem processTokens_max_at_end (st : ParseState) (tok : String)
    (h : tok.toList.take 6 = "--max-".toList) :
    processTokens st [tok] =
      .errorExit st (.stderrLine ("error: Missing argument to " ++ tok ++ "\n")) := by
  have h1 := take6_head tok h
  rw [processTokens.eq_def]; simp_all

theorem processTokens_max_set (st : ParseState) (tok v : String) (rest : List String)
    (kind : LimitKind) (n : Nat)
    (h : tok.toList.take 6 = "--max-".toList)
    (hkind : spvParseUniversalLimitsOptions tok = some kind)
    (hn : sscanfD v = some n) :
    processTokens st (tok :: v :: rest) =
      processTokens { st with options := st.options.setUniversalLimit kind n } rest := by
  have h1 := take6_head tok h
  rw [processTokens.eq_def]; simp_all

theorem processTokens_max_bad_value (st : ParseState) (tok v : String) (rest : List String)
    (kind : LimitKind)
    (h : tok.toList.take 6 = "--max-".toList)
    (hkind : spvParseUniversalLimitsOptions tok = some kind)
    (hn : sscanfD v = none) :
    processTokens st (tok :: v :: rest) =
      .errorExit st (.stderrLine ("error: missing argument to " ++ tok ++ "\n")) := by
  have h1 := take6_head tok h
  rw [processTokens.eq_def]; simp_all

theorem processTokens_max_unrecognized (st : ParseState) (tok v : String) (rest : List String)
    (h : tok.toList.take 6 = "--max-".toList)
    (hkind : spvParseUniversalLimitsOptions tok = none) :
    processTokens st (tok :: v :: rest) =
      .errorExit st (.stderrLine ("error: unrecognized option: " ++ tok ++ "\n")) := by
  have h1 := take6_head tok h
  rw [processTokens.eq_def]; simp_all

theorem processTokens_version (st : ParseState) (rest : List String) :
    processTokens st ("--version" :: rest) = .versionExit versionTargets := by
  rw [processTokens.eq_def]; simp +decide

theorem processTokens_help (st : ParseState) (rest : List String) :
    processTokens st ("--help" :: rest) = .helpExit := by
  rw [processTokens.eq_def]; simp +decide

theorem processTokens_h (st : ParseState) (rest : List String) :
    processTokens st ("-h" :: rest) = .helpExit := by
  rw [processTokens.eq_def]; simp +decide

theorem processTokens_target_env_at_end (st : ParseState) :
    processTokens st ["--target-env"] =
      .errorExit st (.stderrLine "error: Missing argument to --target-env\n") := by
  rw [processTokens.eq_def]; simp +decide

theorem processTokens_target_env_set (st : ParseState) (v : String) (rest : List String)
    (env : TargetEnv) (henv : spvParseTargetEnv v = some env) :
    processTokens st ("--target-env" :: v :: rest) =
      processTokens { st with targetEnv := env } rest := by
  rw [processTokens.eq_def]; simp_all +decide

theorem processTokens_target_env_bad (st : ParseState) (v : String) (rest : List String)
    (henv : spvParseTargetEnv v = none) :
    processTokens st ("--target-env" :: v :: rest) =
      .errorExit st (.stderrLine ("error: Unrecognized target env: " ++ v ++ "\n")) := by
  rw [processTokens.eq_def]; simp_all +decide

theorem processTokens_relax_logical_pointer (st : ParseState) (rest : List String) :
    processTokens st ("--relax-logical-pointer" :: rest) =
      processTokens { st with options := st.options.setRelaxLogicalPointer true } rest := by
  rw [processTokens.eq_def]; simp +decide

theorem processTokens_relax_struct_store (st : ParseState) (rest : List String) :
    processTokens st ("--relax-struct-store" :: rest) =
      processTokens { st with options := st.options.setRelaxStructStore true } rest := by
  rw [processTokens.eq_def]; simp +decide

theorem processTokens_stdin_token (st : ParseState) (rest : List String)
    (hf : st.inFile = none) :
    processTokens st ("-" :: rest) =
      processTokens { st with inFile := some "-" } rest := by
  rw [processTokens.eq_def]; simp_all +decide

theorem processTokens_stdin_token_dup (st : ParseState) (rest : List String) (f : String)
    (hf : st.inFile = some f) :
    processTokens st ("-" :: rest) =
      .errorExit st (.stderrLine "error: More than one input file specified\n") := by
  rw [processTokens.eq_def]; simp_all +decide

theorem processTokens_positional (st : ParseState) (tok : String) (rest : List String)
    (hd : tok.toList.head? ≠ some '-') (hf : st.inFile = none) :
    processTokens st (tok :: rest) =
      processTokens { st with inFile := some tok } rest := by
  rw [processTokens.eq_def]; simp_all

theorem processTokens_positional_dup (st : ParseState) (tok : String) (rest : List String)
    (f : String) (hd : tok.toList.head? ≠ some '-') (hf : st.inFile = some f) :
    processTokens st (tok :: rest) =
      .errorExit st (.stderrLine "error: More than one input file specified\n") := by
  rw [processTokens.eq_def]; simp_all

theorem runMain_errorExit (args : List String) (st : ParseState) (out : ErrOut)
    (readFile : Option String → Option (List Nat))
    (validate : List Nat → TargetEnv → ValidatorOptions → Bool)
    (h : processTokens initState args = .errorExit st out) :
    runMain args readFile validate =
      { exitCode := 1, readAttempted := false, validated := false } := by
  simp only [runMain, h]

theorem runMain_versionExit (args : List String) (printed : List TargetEnv)
    (readFile : Option String → Option (List Nat))
    (validate : List Nat → TargetEnv → ValidatorOptions → Bool)
    (h : processTokens initState args = .versionExit printed) :
    runMain args readFile validate =
      { exitCode := 0, readAttempted := false, validated := false } := by
  simp only [runMain, h]

theorem processTokens_append_cont (st : ParseState) (a : List String) (b : List String)
    (st' : ParseState) (h : processTokens st a = .cont st') :
    processTokens st (a ++ b) = processTokens st' b := by
  induction st, a using processTokens.induct
  case case1 => simp_all [processTokens]
  all_goals (rw [processTokens.eq_def] at h ⊢; simp_all +decide)

/-- Abort is by a single forward pass: an `errorExit` outcome is already
determined by the prefix of the token list up to the error position (the
erroring token plus, when it was consumed, its lookahead token): replacing
everything after that prefix by an arbitrary suffix yields the identical
error and identical abort-time locals.  The only exception is a
missing-argument error, which by construction arises at the very end of the
sequence (`s = []`), where no token follows the error position at all. -/
theorem processTokens_error_determined (st : ParseState) (args : List String)
    (st' : ParseState) (out : ErrOut)
    (h : processTokens st args = .errorExit st' out) :
    ∃ p s, args = p ++ s ∧ processTokens st p = .errorExit st' out ∧
      ((∀ s', processTokens st (p ++ s') = .errorExit st' out) ∨
        (s = [] ∧ ∃ tok,
          out = .stderrLine ("error: Missing argument to " ++ tok ++ "\n"))) := by
  induction st, args using processTokens.induct
  case case1 => rw [processTokens.eq_def] at h; simp_all
  case case2 =>
    rename_i st tok h1 h2
    have hstep := processTokens_max_at_end st tok h2
    rw [hstep] at h
    simp only [ParseResult.errorExit.injEq] at h
    obtain ⟨rfl, rfl⟩ := h
    exact ⟨[tok], [], rfl, hstep, Or.inr ⟨rfl, tok, rfl⟩⟩
  case case3 =>
    rename_i st tok h1 h2 v rest' kind hkind n hn ih
    rw [processTokens_max_set st tok v rest' kind n h2 hkind hn] at h
    obtain ⟨p, s, hps, hp, hor⟩ := ih h
    refine ⟨tok :: v :: p, s, by simp [hps], ?_, ?_⟩
    · rw [processTokens_max_set st tok v p kind n h2 hkind hn]; exact hp
    · rcases hor with hall | hend
      · refine Or.inl fun s' => ?_
        rw [List.cons_append, List.cons_append,
          processTokens_max_set st tok v (p ++ s') kind n h2 hkind hn]
        exact hall s'
      · exact Or.inr hend
  case case4 =>
    rename_i st tok h1 h2 v rest' kind hkind hn
    rw [processTokens_max_bad_value st tok v rest' kind h2 hkind hn] at h
    simp only [ParseResult.errorExit.injEq] at h
    obtain ⟨rfl, rfl⟩ := h
    exact ⟨[tok, v], rest', rfl,
      processTokens_max_bad_value st tok v [] kind h2 hkind hn,
      Or.inl fun s' => processTokens_max_bad_value st tok v s' kind h2 hkind hn⟩
  case case5 =>
    rename_i st tok h1 h2 v rest' hkind
    rw [processTokens_max_unrecognized st tok v rest' h2 hkind] at h
    simp only [ParseResult.errorExit.injEq] at h
    obtain ⟨rfl, rfl⟩ := h
    exact ⟨[tok, v], rest', rfl,
      processTokens_max_unrecognized st tok v [] h2 hkind,
      Or.inl fun s' => processTokens_max_unrecognized st tok v s' h2 hkind⟩
  case case6 => rw [processTokens.eq_def] at h; simp_all +decide
  case case7 => rw [processTokens.eq_def] at h; simp_all +decide
  case case8 =>
    rename_i st h1 h2 h3 h4
    have hstep := processTokens_target_env_at_end st
    rw [hstep] at h
    simp only [ParseResult.errorExit.injEq] at h
    obtain ⟨rfl, rfl⟩ := h
    exact ⟨["--target-env"], [], rfl, hstep, Or.inr ⟨rfl, "--target-env", by decide⟩⟩
  case case9 =>
    rename_i st v rest' env henv h1 h2 h3 h4 ih
    rw [processTokens_target_env_set st v rest' env henv] at h
    obtain ⟨p, s, hps, hp, hor⟩ := ih h
    refine ⟨"--target-env" :: v :: p, s, by simp [hps], ?_, ?_⟩
    · rw [processTokens_target_env_set st v p env henv]; exact hp
    · rcases hor with hall | hend
      · refine Or.inl fun s' => ?_
        rw [List.cons_append, List.cons_append,
          processTokens_target_env_set st v (p ++ s') env henv]
        exact hall s'
      · exact Or.inr hend
  case case10 =>
    rename_i st v rest' henv h1 h2 h3 h4
    rw [processTokens_target_env_bad st v rest' henv] at h
    simp only [ParseResult.errorExit.injEq] at h
    obtain ⟨rfl, rfl⟩ := h
    exact ⟨["--target-env", v], rest', rfl,
      processTokens_target_env_bad st v [] henv,
      Or.inl fun s' => processTokens_target_env_bad st v s' henv⟩
  case case11 =>
    rename_i st rest' h1 h2 h3 h4 h5 ih
    rw [processTokens_relax_logical_pointer st rest'] at h
    obtain ⟨p, s, hps, hp, hor⟩ := ih h
    refine ⟨"--relax-logical-pointer" :: p, s, by simp [hps], ?_, ?_⟩
    · rw [processTokens_relax_logical_pointer st p]; exact hp
    · rcases hor with hall | hend
      · refine Or.inl fun s' => ?_
        rw [List.cons_append, processTokens_relax_logical_pointer st (p ++ s')]
        exact hall s'
      · exact Or.inr hend
  case case12 =>
    rename_i st rest' h1 h2 h3 h4 h5 h6 ih
    rw [processTokens_relax_struct_store st rest'] at h
    obtain ⟨p, s, hps, hp, hor⟩ := ih h
    refine ⟨"--relax-struct-store" :: p, s, by simp [hps], ?_, ?_⟩
    · rw [processTokens_relax_struct_store st p]; exact hp
    · rcases hor with hall | hend
      · refine Or.inl fun s' => ?_
        rw [List.cons_append, processTokens_relax_struct_store st (p ++ s')]
        exact hall s'
      · exact Or.inr hend
  case case13 =>
    rename_i st rest' hf c1 c2 c3 c4 c5 c6 c7 ih
    rw [processTokens_stdin_token st rest' hf] at h
    obtain ⟨p, s, hps, hp, hor⟩ := ih h
    refine ⟨"-" :: p, s, by simp [hps], ?_, ?_⟩
    · rw [processTokens_stdin_token st p hf]; exact hp
    · rcases hor with hall | hend
      · refine Or.inl fun s' => ?_
        rw [List.cons_append, processTokens_stdin_token st (p ++ s') hf]
        exact hall s'
      · exact Or.inr hend
  case case14 =>
    rename_i st rest' f hf c1 c2 c3 c4 c5 c6 c7
    rw [processTokens_stdin_token_dup st rest' f hf] at h
    simp only [ParseResult.errorExit.injEq] at h
    obtain ⟨rfl, rfl⟩ := h
    exact ⟨["-"], rest', rfl,
      processTokens_stdin_token_dup st [] f hf,
      Or.inl fun s' => processTokens_stdin_token_dup st s' f hf⟩
  case case15 =>
    rename_i st tok rest' h1 h2 h3 h4 h5 h6 h7 h8
    have hstep : ∀ r, processTokens st (tok :: r) = .errorExit st .usage := by
      intro r
      rw [processTokens.eq_def]
      simp_all
    rw [hstep rest'] at h
    simp only [ParseResult.errorExit.injEq] at h
    obtain ⟨rfl, rfl⟩ := h
    exact ⟨[tok], rest', rfl, hstep [], Or.inl fun s' => hstep s'⟩
  case case16 =>
    rename_i st tok rest' hd hf ih
    rw [processTokens_positional st tok rest' hd hf] at h
    obtain ⟨p, s, hps, hp, hor⟩ := ih h
    refine ⟨tok :: p, s, by simp [hps], ?_, ?_⟩
    · rw [processTokens_positional st tok p hd hf]; exact hp
    · rcases hor with hall | hend
      · refine Or.inl fun s' => ?_
        rw [List.cons_append, processTokens_positional st tok (p ++ s') hd hf]
        exact hall s'
      · exact Or.inr hend
  case case17 =>
    rename_i st tok rest' hd f hf
    rw [processTokens_positional_dup st tok rest' f hd hf] at h
    simp only [ParseResult.errorExit.injEq] at h
    obtain ⟨rfl, rfl⟩ := h
    exact ⟨[tok], rest', rfl,
      processTokens_positional_dup st tok [] f hd hf,
      Or.inl fun s' => processTokens_positional_dup st tok s' f hd hf⟩

/-- Refinement of the limit mapping: after a successful pass, the limit for
`k` is the value of the last valid `--max-<name> <n>` pair for `k` in the
token sequence, falling back to the initial state's entry when no pair
mentions `k`. -/
theorem processTokens_limits (st : ParseState) (args : List String) (st' : ParseState)
    (k : LimitKind) (h : processTokens st args = .cont st') :
    st'.options.limits k =
      match lastAssoc (limitPairs args) k with
      | some v => some v
      | none => st.options.limits k := by
  induction st, args using processTokens.induct
  case case1 =>
    rw [processTokens.eq_def] at h
    simp only [ParseResult.cont.injEq] at h
    subst h
    simp [limitPairs, lastAssoc]
  case case2 =>
    rename_i st tok h1 h2
    rw [processTokens_max_at_end st tok h2] at h
    simp at h
  case case3 =>
    rename_i st tok h1 h2 v rest' kind hkind n hn ih
    rw [processTokens_max_set st tok v rest' kind n h2 hkind hn] at h
    have hlp : limitPairs (tok :: v :: rest') = (kind, n) :: limitPairs rest' := by
      rw [limitPairs.eq_def]
      simp_all
    rw [hlp, ih h]
    cases hla : lastAssoc (limitPairs rest') k with
    | some w => simp [lastAssoc, hla]
    | none =>
      simp only [lastAssoc, hla, ValidatorOptions.setUniversalLimit]
      by_cases hk : k = kind
      · simp [hk]
      · have hk' : ¬ kind = k := fun hh => hk hh.symm
        simp [hk, hk']
  case case4 =>
    rename_i st tok h1 h2 v rest' kind hkind hn
    rw [processTokens_max_bad_value st tok v rest' kind h2 hkind hn] at h
    simp at h
  case case5 =>
    rename_i st tok h1 h2 v rest' hkind
    rw [processTokens_max_unrecognized st tok v rest' h2 hkind] at h
    simp at h
  case case6 => rw [processTokens.eq_def] at h; simp_all +decide
  case case7 => rw [processTokens.eq_def] at h; simp_all +decide
  case case8 =>
    rename_i st h1 h2 h3 h4
    rw [processTokens_target_env_at_end st] at h
    simp at h
  case case9 =>
    rename_i st v rest' env henv h1 h2 h3 h4 ih
    rw [processTokens_target_env_set st v rest' env henv] at h
    have hlp : limitPairs ("--target-env" :: v :: rest') = limitPairs rest' := by
      rw [limitPairs.eq_def]
      simp_all +decide
    rw [hlp]
    exact ih h
  case case10 =>
    rename_i st v rest' henv h1 h2 h3 h4
    rw [processTokens_target_env_bad st v rest' henv] at h
    simp at h
  case case11 =>
    rename_i st rest' h1 h2 h3 h4 h5 ih
    rw [processTokens_relax_logical_pointer st rest'] at h
    have hlp : limitPairs ("--relax-logical-pointer" :: rest') = limitPairs rest' := by
      rw [limitPairs.eq_def]
      simp +decide
    rw [hlp]
    exact ih h
  case case12 =>
    rename_i st rest' h1 h2 h3 h4 h5 h6 ih
    rw [processTokens_relax_struct_store st rest'] at h
    have hlp : limitPairs ("--relax-struct-store" :: rest') = limitPairs rest' := by
      rw [limitPairs.eq_def]
      simp +decide
    rw [hlp]
    exact ih h
  case case13 =>
    rename_i st rest' hf c1 c2 c3 c4 c5 c6 c7 ih
    rw [processTokens_stdin_token st rest' hf] at h
    have hlp : limitPairs ("-" :: rest') = limitPairs rest' := by
      rw [limitPairs.eq_def]
      simp +decide
    rw [hlp]
    exact ih h
  case case14 =>
    rename_i st rest' f hf c1 c2 c3 c4 c5 c6 c7
    rw [processTokens_stdin_token_dup st rest' f hf] at h
    simp at h
  case case15 =>
    rename_i st tok rest' h1 h2 h3 h4 h5 h6 h7 h8
    rw [processTokens.eq_def] at h
    simp_all
  case case16 =>
    rename_i st tok rest' hd hf ih
    rw [processTokens_positional st tok rest' hd hf] at h
    have hlp : limitPairs (tok :: rest') = limitPairs rest' := by
      rw [limitPairs.eq_def]
      simp_all
    rw [hlp]
    exact ih h
  case case17 =>
    rename_i st tok rest' hd f hf
    rw [processTokens_positional_dup st tok rest' f hd hf] at h
    simp at h

/-- When `--target-env` never occurs among the tokens, a successful pass
leaves the target environment unchanged. -/
theorem processTokens_targetEnv (st : ParseState) (args : List String)
    (st' : ParseState) (hmem : "--target-env" ∉ args)
    (h : processTokens st args = .cont st') :
    st'.targetEnv = st.targetEnv := by
  induction st, args using processTokens.induct
  case case1 =>
    rw [processTokens.eq_def] at h
    simp only [ParseResult.cont.injEq] at h
    subst h
    rfl
  case case2 =>
    rename_i st tok h1 h2
    rw [processTokens_max_at_end st tok h2] at h
    simp at h
  case case3 =>
    rename_i st tok h1 h2 v rest' kind hkind n hn ih
    rw [processTokens_max_set st tok v rest' kind n h2 hkind hn] at h
    simp only [List.mem_cons, not_or] at hmem
    exact ih (by simpa using hmem.2.2) h
  case case4 =>
    rename_i st tok h1 h2 v rest' kind hkind hn
    rw [processTokens_max_bad_value st tok v rest' kind h2 hkind hn] at h
    simp at h
  case case5 =>
    rename_i st tok h1 h2 v rest' hkind
    rw [processTokens_max_unrecognized st tok v rest' h2 hkind] at h
    simp at h
  case case6 => rw [processTokens.eq_def] at h; simp_all +decide
  case case7 => rw [processTokens.eq_def] at h; simp_all +decide
  case case8 => simp at hmem
  case case9 => simp at hmem
  case case10 => simp at hmem
  case case11 =>
    rename_i st rest' h1 h2 h3 h4 h5 ih
    rw [processTokens_relax_logical_pointer st rest'] at h
    simp only [List.mem_cons, not_or] at hmem
    exact ih (by simpa using hmem.2) h
  case case12 =>
    rename_i st rest' h1 h2 h3 h4 h5 h6 ih
    rw [processTokens_relax_struct_store st rest'] at h
    simp only [List.mem_cons, not_or] at hmem
    exact ih (by simpa using hmem.2) h
  case case13 =>
    rename_i st rest' hf c1 c2 c3 c4 c5 c6 c7 ih
    rw [processTokens_stdin_token st rest' hf] at h
    simp only [List.mem_cons, not_or] at hmem
    exact ih (by simpa using hmem.2) h
  case case14 =>
    rename_i st rest' f hf c1 c2 c3 c4 c5 c6 c7
    rw [processTokens_stdin_token_dup st rest' f hf] at h
    simp at h
  case case15 =>
    rename_i st tok rest' h1 h2 h3 h4 h5 h6 h7 h8
    rw [processTokens.eq_def] at h
    simp_all
  case case16 =>
    rename_i st tok rest' hd hf ih
    rw [processTokens_positional st tok rest' hd hf] at h
    simp only [List.mem_cons, not_or] at hmem
    exact ih (by simpa using hmem.2) h
  case case17 =>
    rename_i st tok rest' hd f hf
    rw [processTokens_positional_dup st tok rest' f hd hf] at h
    simp at h

/-- Repeating `--relax-logical-pointer` any positive number of times in a row
is the same as supplying it once. -/
theorem processTokens_replicate_rlp (n : Nat) (st : ParseState) (rest : List String) :
    processTokens st (List.replicate (n + 1) "--relax-logical-pointer" ++ rest) =
      processTokens st ("--relax-logical-pointer" :: rest) := by
  induction n generalizing st with
  | zero => rfl
  | succ n ih =>
    rw [List.replicate_succ, List.cons_append,
      processTokens_relax_logical_pointer, ih,
      processTokens_relax_logical_pointer, processTokens_relax_logical_pointer]
    rfl

/-- Repeating `--relax-struct-store` any positive number of times in a row
is the same as supplying it once. -/
theorem processTokens_replicate_rss (n : Nat) (st : ParseState) (rest : List String) :
    processTokens st (List.replicate (n + 1) "--relax-struct-store" ++ rest) =
      processTokens st ("--relax-struct-store" :: rest) := by
  induction n generalizing st with
  | zero => rfl
  | succ n ih =>
    rw [List.replicate_succ, List.cons_append,
      processTokens_relax_struct_store, ih,
      processTokens_relax_struct_store, processTokens_relax_struct_store]
    rfl

/-- A flag the Limit Option Resolver recognises necessarily carries the
`--max-` lead-in, since every name in its fixed table does. -/
theorem resolver_take6 (tok : String) (kind : LimitKind)
    (h : spvParseUniversalLimitsOptions tok = some kind) :
    tok.toList.take 6 = "--max-".toList := by
  unfold spvParseUniversalLimitsOptions at h
  split_ifs at h with h1 h2 h3 h4 h5 h6 h7 h8
  · subst h1; decide
  · subst h2; decide
  · subst h3; decide
  · subst h4; decide
  · subst h5; decide
  · subst h6; decide
  · subst h7; decide
  · subst h8; decide

/-- C1: for every run that reaches the validation call (argument parsing
continued to the end and the input read succeeded), the process exit code is
exactly the logical negation of the boolean returned by the external
validate call — 0 when it returns true, 1 when it returns false, and nothing
else is possible on that path. -/
theorem C1_exit_code_negation (args : List String)
    (readFile : Option String → Option (List Nat))
    (validate : List Nat → TargetEnv → ValidatorOptions → Bool)
    (st : ParseState) (contents : List Nat)
    (hparse : processTokens initState args = .cont st)
    (hread : readFile st.inFile = some contents) :
    runMain args readFile validate =
      { exitCode := if validate contents st.targetEnv st.options then 0 else 1
        readAttempted := true
        validated := true } := by
  simp only [runMain, hparse, hread]

/-- Witness for C1 at the empty argument list, with both validator
outcomes. -/
theorem C1_exit_code_negation_witness :
    processTokens initState [] = .cont initState ∧
    (fun (_ : Option String) => some ([] : List Nat)) initState.inFile = some [] ∧
    runMain [] (fun _ => some []) (fun _ _ _ => true) =
      { exitCode := 0, readAttempted := true, validated := true } ∧
    runMain [] (fun _ => some []) (fun _ _ _ => false) =
      { exitCode := 1, readAttempted := true, validated := true } := by
  refine ⟨rfl, rfl, ?_, ?_⟩
  · exact C1_exit_code_negation [] (fun _ => some []) (fun _ _ _ => true) initState [] rfl rfl
  · exact C1_exit_code_negation [] (fun _ => some []) (fun _ _ _ => false) initState [] rfl rfl

/-- C2: the diagnostic callback routes fatal/internal-error/error to standard
error with label `error:`, warning to standard output with `warning:`, info
to standard output with `info:`, drops any other severity, and every printed
line has the exact shape `<label>: <position-index>: <message>` plus a line
terminator; in particular a warning at position 7 with message `X` produces
exactly `warning: 7: X` on standard output. -/
theorem C2_diagnostic_routing :
    (∀ (level : MessageLevel) (positionIndex : Nat) (message : String),
      messageConsumer level positionIndex message =
        specRouteDiagnostic level positionIndex message) ∧
    messageConsumer .warning 7 "X" = [(.stdout, "warning: 7: X\n")] ∧
    messageConsumer .error 7 "X" = [(.stderr, "error: 7: X\n")] ∧
    messageConsumer .fatal 7 "X" = [(.stderr, "error: 7: X\n")] ∧
    messageConsumer .internalError 7 "X" = [(.stderr, "error: 7: X\n")] ∧
    messageConsumer .info 7 "X" = [(.stdout, "info: 7: X\n")] ∧
    messageConsumer .other 7 "X" = [] := by
  refine ⟨fun level p m => ?_, by decide, by decide, by decide, by decide, by decide, by decide⟩
  cases level <;> rfl

/-- C3: an argument sequence with a parse error exits with code 1, reads no
input and performs no validation call; moreover the sequence splits as
`p ++ s` where the prefix `p` (ending at the error position) already produces
the identical error with the identical abort-time locals, and either every
replacement of the remainder `s` by an arbitrary suffix still produces that
identical error — so no token after the error position is ever applied,
while the locals accumulated before the error are carried into the abort —
or the error is a missing-argument error, which arises only with `s = []`,
at the very end of the sequence, where no token follows the error at all. -/
theorem C3_parse_error_aborts (args : List String) (st' : ParseState) (out : ErrOut)
    (readFile : Option String → Option (List Nat))
    (validate : List Nat → TargetEnv → ValidatorOptions → Bool)
    (h : processTokens initState args = .errorExit st' out) :
    runMain args readFile validate =
      { exitCode := 1, readAttempted := false, validated := false } ∧
    ∃ p s, args = p ++ s ∧ processTokens initState p = .errorExit st' out ∧
      ((∀ s', processTokens initState (p ++ s') = .errorExit st' out) ∨
        (s = [] ∧ ∃ tok,
          out = .stderrLine ("error: Missing argument to " ++ tok ++ "\n"))) :=
  ⟨runMain_errorExit args st' out readFile validate h,
   processTokens_error_determined initState args st' out h⟩

/-- Witness for C3 on `["a", "b", "--relax-struct-store"]`, which errors at
the second input token with one token still unread; the error is not a
missing-argument error, so the suffix-irrelevance disjunct must hold. -/
theorem C3_parse_error_aborts_witness :
    processTokens initState ["a", "b", "--relax-struct-store"] =
      .errorExit { options := initState.options, targetEnv := .universal_1_2, inFile := some "a" }
        (.stderrLine "error: More than one input file specified\n") ∧
    (runMain ["a", "b", "--relax-struct-store"] (fun _ => some []) (fun _ _ _ => true) =
      { exitCode := 1, readAttempted := false, validated := false } ∧
    ∃ p s, ["a", "b", "--relax-struct-store"] = p ++ s ∧
      processTokens initState p =
        .errorExit { options := initState.options, targetEnv := .universal_1_2, inFile := some "a" }
          (.stderrLine "error: More than one input file specified\n") ∧
      ((∀ s', processTokens initState (p ++ s') =
        .errorExit { options := initState.options, targetEnv := .universal_1_2, inFile := some "a" }
          (.stderrLine "error: More than one input file specified\n")) ∨
        (s = [] ∧ ∃ tok,
          ErrOut.stderrLine "error: More than one input file specified\n" =
            .stderrLine ("error: Missing argument to " ++ tok ++ "\n")))) :=
  ⟨rfl, C3_parse_error_aborts ["a", "b", "--relax-struct-store"] _ _
    (fun _ => some []) (fun _ _ _ => true) rfl⟩

/-- C4 (counterexample): with two input tokens the loop writes the
capitalised message `error: More than one input file specified`, so the
lowercase message text the claim quotes appears nowhere in the output. -/
theorem C4_counterexample :
    (processTokens initState ["-", "x"]).errOut? =
      some (.stderrLine "error: More than one input file specified\n") ∧
    ¬ ("more than one input file specified".toList <:+:
        "error: More than one input file specified\n".toList) := by
  exact ⟨by decide, by decide⟩

/-- C4 (amended): two input-path tokens (each `-` or non-dash positional, in
any order) make parsing fail with `error: More than one input file
specified` — capitalised, unlike the claim's quoted text — on standard
error, with exit code 1 and no read from any file. -/
theorem C4_two_input_files (t₁ t₂ : String)
    (readFile : Option String → Option (List Nat))
    (validate : List Nat → TargetEnv → ValidatorOptions → Bool)
    (h₁ : isInputPathToken t₁) (h₂ : isInputPathToken t₂) :
    processTokens initState [t₁, t₂] =
      .errorExit { options := initState.options, targetEnv := .universal_1_2, inFile := some t₁ }
        (.stderrLine "error: More than one input file specified\n") ∧
    runMain [t₁, t₂] readFile validate =
      { exitCode := 1, readAttempted := false, validated := false } := by
  have hstep : processTokens initState [t₁, t₂] =
      processTokens { options := initState.options
                      targetEnv := initState.targetEnv
                      inFile := some t₁ } [t₂] := by
    rcases h₁ with rfl | hd
    · exact processTokens_stdin_token initState [t₂] rfl
    · exact processTokens_positional initState t₁ [t₂] hd rfl
  have herr : processTokens { options := initState.options
                              targetEnv := initState.targetEnv
                              inFile := some t₁ } [t₂] =
      .errorExit { options := initState.options
                   targetEnv := initState.targetEnv
                   inFile := some t₁ }
        (.stderrLine "error: More than one input file specified\n") := by
    rcases h₂ with rfl | hd
    · exact processTokens_stdin_token_dup _ [] t₁ rfl
    · exact processTokens_positional_dup _ t₂ [] t₁ hd rfl
  refine ⟨by rw [hstep, herr]; rfl, ?_⟩
  exact runMain_errorExit _ _ _ _ _ (by rw [hstep, herr])

/-- Witness for C4 (amended) with `-` first and a real path second. -/
theorem C4_two_input_files_witness :
    isInputPathToken "-" ∧ isInputPathToken "in.spv" ∧
    processTokens initState ["-", "in.spv"] =
      .errorExit { options := initState.options, targetEnv := .universal_1_2, inFile := some "-" }
        (.stderrLine "error: More than one input file specified\n") ∧
    runMain ["-", "in.spv"] (fun _ => some []) (fun _ _ _ => true) =
      { exitCode := 1, readAttempted := false, validated := false } := by
  have h := C4_two_input_files "-" "in.spv" (fun _ => some []) (fun _ _ _ => true)
    (Or.inl rfl) (Or.inr (by decide))
  exact ⟨Or.inl rfl, Or.inr (by decide), h.1, h.2⟩

/-- C5 (counterexample): `--max-bogus` as the last token is not recognised
by the resolver, yet the loop reports `error: Missing argument to
--max-bogus` — not the claimed "unrecognized option" error — because the
following-token check precedes the resolver call. -/
theorem C5_counterexample :
    spvParseUniversalLimitsOptions "--max-bogus" = none ∧
    "--max-bogus".toList.take 6 = "--max-".toList ∧
    (processTokens initState ["--max-bogus"]).errOut? =
      some (.stderrLine "error: Missing argument to --max-bogus\n") ∧
    ¬ ("unrecognized option".toList <:+:
        "error: Missing argument to --max-bogus\n".toList) := by
  exact ⟨by decide, by decide, by decide, by decide⟩

/-- C5 (amended): an unrecognised `--max-` token with a following token
yields the `unrecognized option` parse error; without a following token it
yields the `Missing argument` parse error instead; both exit with code 1 and
neither reads input nor validates. -/
theorem C5_unrecognized_max_flag (tok v : String) (rest : List String)
    (readFile : Option String → Option (List Nat))
    (validate : List Nat → TargetEnv → ValidatorOptions → Bool)
    (htok : tok.toList.take 6 = "--max-".toList)
    (hkind : spvParseUniversalLimitsOptions tok = none) :
    (∀ st, processTokens st (tok :: v :: rest) =
      .errorExit st (.stderrLine ("error: unrecognized option: " ++ tok ++ "\n"))) ∧
    (∀ st, processTokens st [tok] =
      .errorExit st (.stderrLine ("error: Missing argument to " ++ tok ++ "\n"))) ∧
    runMain (tok :: v :: rest) readFile validate =
      { exitCode := 1, readAttempted := false, validated := false } ∧
    runMain [tok] readFile validate =
      { exitCode := 1, readAttempted := false, validated := false } :=
  ⟨fun st => processTokens_max_unrecognized st tok v rest htok hkind,
   fun st => processTokens_max_at_end st tok htok,
   runMain_errorExit _ _ _ _ _ (processTokens_max_unrecognized initState tok v rest htok hkind),
   runMain_errorExit _ _ _ _ _ (processTokens_max_at_end initState tok htok)⟩

/-- Witness for C5 (amended) at `--max-bogus`. -/
theorem C5_unrecognized_max_flag_witness :
    "--max-bogus".toList.take 6 = "--max-".toList ∧
    spvParseUniversalLimitsOptions "--max-bogus" = none ∧
    processTokens initState ["--max-bogus", "9", "f"] =
      .errorExit initState (.stderrLine "error: unrecognized option: --max-bogus\n") ∧
    runMain ["--max-bogus"] (fun _ => some []) (fun _ _ _ => true) =
      { exitCode := 1, readAttempted := false, validated := false } := by
  have h := C5_unrecognized_max_flag "--max-bogus" "9" ["f"]
    (fun _ => some []) (fun _ _ _ => true) (by decide) (by decide)
  exact ⟨by decide, by decide, h.1 initState, h.2.2.2⟩

/-- C6 (counterexample): after a recognised `--max-` flag, the negative token
`-5` is accepted by `sscanf("%d")`, the limit is set to 2^32 - 5, and the
run proceeds to validation with exit code 0 — no parse error occurs, contrary
to the claim that a negative number is rejected. -/
theorem C6_counterexample :
    sscanfD "-5" = some 4294967291 ∧
    (processTokens initState ["--max-struct-members", "-5"]).isCont = true ∧
    ((processTokens initState ["--max-struct-members", "-5"]).contState?.map
      (fun st => st.options.limits .structMembers)) = some (some 4294967291) ∧
    runMain ["--max-struct-members", "-5"] (fun _ => some []) (fun _ _ _ => true) =
      { exitCode := 0, readAttempted := true, validated := true } := by
  exact ⟨by decide, by decide, by decide, by decide⟩

/-- C6 (amended): after a recognised `--max-<name>`, the following token is
accepted exactly when `if (sscanf(v, "%d", &limit))` takes the branch: either
`%d` matches (optional leading whitespace, optional sign, at least one
base-10 digit; the signed value is stored into a 32-bit slot, i.e. reduced
mod 2^32), or the token is empty or all whitespace, where `sscanf` returns
EOF (-1) — truthy for the `if` — and the limit is set to the initialised 0.
So unsigned integers, negative numbers, and empty tokens are all accepted;
only a non-empty token whose first non-whitespace part is not an
optionally-signed digit sequence (e.g. `abc`, or a bare `-`) yields the
parse error `missing argument to X`. -/
theorem C6_max_value_sscanf (tok v : String) (rest : List String) (st : ParseState)
    (kind : LimitKind)
    (hkind : spvParseUniversalLimitsOptions tok = some kind) :
    (∀ n, sscanfD v = some n →
      processTokens st (tok :: v :: rest) =
        processTokens { st with options := st.options.setUniversalLimit kind n } rest) ∧
    (sscanfD v = none →
      processTokens st (tok :: v :: rest) =
        .errorExit st (.stderrLine ("error: missing argument to " ++ tok ++ "\n"))) ∧
    sscanfD "17" = some 17 ∧ sscanfD "-5" = some 4294967291 ∧
    sscanfD "+12" = some 12 ∧ sscanfD "" = some 0 ∧ sscanfD " " = some 0 ∧
    sscanfD "abc" = none ∧ sscanfD "-" = none := by
  have htok := resolver_take6 tok kind hkind
  exact ⟨fun n hn => processTokens_max_set st tok v rest kind n htok hkind hn,
    fun hn => processTokens_max_bad_value st tok v rest kind htok hkind hn,
    by decide, by decide, by decide, by decide, by decide, by decide, by decide⟩

/-- Witness for C6 (amended) at `--max-struct-depth` with a numeric and a
non-numeric value token. -/
theorem C6_max_value_sscanf_witness :
    spvParseUniversalLimitsOptions "--max-struct-depth" = some .structDepth ∧
    sscanfD "42" = some 42 ∧
    processTokens initState ["--max-struct-depth", "42"] =
      processTokens
        { initState with options := initState.options.setUniversalLimit .structDepth 42 } [] ∧
    sscanfD "xyz" = none ∧
    processTokens initState ["--max-struct-depth", "xyz"] =
      .errorExit initState (.stderrLine "error: missing argument to --max-struct-depth\n") := by
  have h := C6_max_value_sscanf "--max-struct-depth" "42" [] initState .structDepth (by decide)
  have h' := C6_max_value_sscanf "--max-struct-depth" "xyz" [] initState .structDepth (by decide)
  exact ⟨by decide, by decide, h.1 42 (by decide), by decide, h'.2.1 (by decide)⟩

/-- C7 (counterexample): the empty value token carries no digit at all — it
is not a base-10 unsigned integer `<n>` — yet `--max-struct-depth ""` parses
successfully (sscanf returns EOF, truthy for the `if`), the limit mapping
acquires the entry struct-depth ↦ 0, and the run proceeds to validation:
the mapping contains a kind that no valid `--max-<name> <n>` pair set. -/
theorem C7_counterexample :
    "".toList.takeWhile Char.isDigit = [] ∧
    sscanfD "" = some 0 ∧
    (processTokens initState ["--max-struct-depth", ""]).isCont = true ∧
    ((processTokens initState ["--max-struct-depth", ""]).contState?.map
      (fun st => st.options.limits .structDepth)) = some (some 0) ∧
    runMain ["--max-struct-depth", ""] (fun _ => some []) (fun _ _ _ => true) =
      { exitCode := 0, readAttempted := true, validated := true } := by
  exact ⟨by decide, by decide, by decide, by decide, by decide⟩

/-- C7 (amended): after a successful parse, the limit mapping holds exactly
the kinds set by accepted `--max-<name> <v>` pairs, acceptance being that of
`sscanf("%d")` — a matched optionally-signed digit sequence (value mod 2^32)
or an empty/all-whitespace token accepted as 0 via the truthy EOF return —
the entry for `k` being the value of the last accepted pair for `k` in the
sequence (`lastAssoc` over `limitPairs`), and `none` (absent) when no such
pair mentions `k`. -/
theorem C7_limit_mapping (args : List String) (st' : ParseState) (k : LimitKind)
    (h : processTokens initState args = .cont st') :
    st'.options.limits k = lastAssoc (limitPairs args) k := by
  rw [processTokens_limits initState args st' k h]
  cases hla : lastAssoc (limitPairs args) k <;> rfl

/-- Witness for C7: two pairs for struct-members (last wins), one for
function-args, none for struct-depth. -/
theorem C7_limit_mapping_witness :
    ((processTokens initState ["--max-struct-members", "5", "--max-struct-members", "7",
        "--max-function-args", "3"]).contState?.map
      (fun st => (st.options.limits .structMembers, st.options.limits .functionArgs,
        st.options.limits .structDepth))) = some (some 7, some 3, none) ∧
    lastAssoc (limitPairs ["--max-struct-members", "5", "--max-struct-members", "7",
        "--max-function-args", "3"]) .structMembers = some 7 := by
  obtain ⟨st, hst⟩ : ∃ st, processTokens initState ["--max-struct-members", "5",
      "--max-struct-members", "7", "--max-function-args", "3"] = .cont st := ⟨_, rfl⟩
  refine ⟨?_, by decide⟩
  rw [hst]
  simp only [ParseResult.contState?, Option.map_some']
  rw [C7_limit_mapping _ st .structMembers hst, C7_limit_mapping _ st .functionArgs hst,
    C7_limit_mapping _ st .structDepth hst]
  decide

/-- C8: `--target-env` with a value in the fixed table sets the target
environment with no error (`spv1.1` selects Universal 1.1); an unrecognised
value or a missing value is a parse error with exit code 1 and no read or
validation; and without `--target-env` the target environment stays at the
default `SPV_ENV_UNIVERSAL_1_2`. -/
theorem C8_target_env_option :
    (∀ st v env rest, spvParseTargetEnv v = some env →
      processTokens st ("--target-env" :: v :: rest) =
        processTokens { st with targetEnv := env } rest) ∧
    spvParseTargetEnv "spv1.1" = some .universal_1_1 ∧
    spvParseTargetEnv "vulkan1.0" = some .vulkan_1_0 ∧
    spvParseTargetEnv "spv1.0" = some .universal_1_0 ∧
    spvParseTargetEnv "spv1.2" = some .universal_1_2 ∧
    (∀ st v rest, spvParseTargetEnv v = none →
      processTokens st ("--target-env" :: v :: rest) =
        .errorExit st (.stderrLine ("error: Unrecognized target env: " ++ v ++ "\n"))) ∧
    (∀ st, processTokens st ["--target-env"] =
      .errorExit st (.stderrLine "error: Missing argument to --target-env\n")) ∧
    (∀ args st' out readFile validate, processTokens initState args = .errorExit st' out →
      runMain args readFile validate =
        { exitCode := 1, readAttempted := false, validated := false }) ∧
    initState.targetEnv = .universal_1_2 ∧
    (∀ args st', "--target-env" ∉ args → processTokens initState args = .cont st' →
      st'.targetEnv = .universal_1_2) :=
  ⟨fun st v env rest h => processTokens_target_env_set st v rest env h,
   by decide, by decide, by decide, by decide,
   fun st v rest h => processTokens_target_env_bad st v rest h,
   fun st => processTokens_target_env_at_end st,
   fun args st' out rf vl h => runMain_errorExit args st' out rf vl h,
   rfl,
   fun args st' hm h => processTokens_targetEnv initState args st' hm h⟩

/-- Witness for C8: `spv1.1` is accepted and selects Universal 1.1; `bogus`
is rejected with exit code 1 and no validation. -/
theorem C8_target_env_option_witness :
    spvParseTargetEnv "spv1.1" = some .universal_1_1 ∧
    processTokens initState ["--target-env", "spv1.1"] =
      .cont { options := initState.options, targetEnv := .universal_1_1, inFile := none } ∧
    spvParseTargetEnv "bogus" = none ∧
    runMain ["--target-env", "bogus"] (fun _ => some []) (fun _ _ _ => true) =
      { exitCode := 1, readAttempted := false, validated := false } := by
  refine ⟨by decide, ?_, by decide, ?_⟩
  · rw [C8_target_env_option.1 initState "spv1.1" .universal_1_1 [] (by decide)]
    rfl
  · exact C8_target_env_option.2.2.2.2.2.2.2.1 ["--target-env", "bogus"] initState
      (.stderrLine ("error: Unrecognized target env: " ++ "bogus" ++ "\n"))
      (fun _ => some []) (fun _ _ _ => true)
      (C8_target_env_option.2.2.2.2.2.1 initState "bogus" [] (by decide))

/-- C9: reaching `--version` without a prior parse error prints the
version/build string and the descriptions of exactly three hard-coded target
environments (Universal 1.1, Vulkan 1.0, Universal 1.2 — a fixed set that
omits Universal 1.0 even though `spv1.0` is an accepted `--target-env`
value, and that ignores any selected target environment), then exits with
code 0, processing no further token. -/
theorem C9_version_is_terminal :
    (∀ st rest, processTokens st ("--version" :: rest) = .versionExit versionTargets) ∧
    (∀ p st₀ rest, processTokens initState p = .cont st₀ →
      processTokens initState (p ++ "--version" :: rest) = .versionExit versionTargets) ∧
    versionTargets = [.universal_1_1, .vulkan_1_0, .universal_1_2] ∧
    versionTargets.length = 3 ∧
    TargetEnv.universal_1_0 ∉ versionTargets ∧
    spvParseTargetEnv "spv1.0" = some .universal_1_0 ∧
    (∀ args printed readFile validate, processTokens initState args = .versionExit printed →
      runMain args readFile validate =
        { exitCode := 0, readAttempted := false, validated := false }) := by
  refine ⟨fun st rest => processTokens_version st rest,
    fun p st₀ rest h => ?_,
    rfl, rfl, by decide, by decide,
    fun args printed rf vl h => runMain_versionExit args printed rf vl h⟩
  rw [processTokens_append_cont initState p _ st₀ h, processTokens_version]

/-- Witness for C9: `--version` after an input path, with junk following. -/
theorem C9_version_is_terminal_witness :
    processTokens initState ["in.spv", "--version", "junk"] = .versionExit versionTargets ∧
    runMain ["--version"] (fun _ => some []) (fun _ _ _ => false) =
      { exitCode := 0, readAttempted := false, validated := false } := by
  refine ⟨?_, ?_⟩
  · exact C9_version_is_terminal.2.1 ["in.spv"]
      { options := initState.options, targetEnv := .universal_1_2, inFile := some "in.spv" }
      ["junk"] rfl
  · exact C9_version_is_terminal.2.2.2.2.2.2 ["--version"] versionTargets
      (fun _ => some []) (fun _ _ _ => false) (C9_version_is_terminal.1 initState [])

/-- C10: the two relaxation flags consume no following token and can never
cause a parse error — each occurrence just sets its boolean to true and
continues — and repeating either flag any positive number of times in a row
behaves exactly like supplying it once. -/
theorem C10_relax_flags_idempotent :
    (∀ st rest, processTokens st ("--relax-logical-pointer" :: rest) =
      processTokens { st with options := st.options.setRelaxLogicalPointer true } rest) ∧
    (∀ st rest, processTokens st ("--relax-struct-store" :: rest) =
      processTokens { st with options := st.options.setRelaxStructStore true } rest) ∧
    (∀ n st rest, processTokens st (List.replicate (n + 1) "--relax-logical-pointer" ++ rest) =
      processTokens st ("--relax-logical-pointer" :: rest)) ∧
    (∀ n st rest, processTokens st (List.replicate (n + 1) "--relax-struct-store" ++ rest) =
      processTokens st ("--relax-struct-store" :: rest)) ∧
    (∀ (st : ParseState),
      ({ st with options := st.options.setRelaxLogicalPointer true } :
        ParseState).options.relaxLogicalPointer = true) ∧
    (∀ (st : ParseState),
      ({ st with options := st.options.setRelaxStructStore true } :
        ParseState).options.relaxStructStore = true) :=
  ⟨processTokens_relax_logical_pointer, processTokens_relax_struct_store,
   fun n => processTokens_replicate_rlp n, fun n => processTokens_replicate_rss n,
   fun _ => rfl, fun _ => rfl⟩

end SpvVal
